import Mathlib

/-!
Verification of `generate_protein_products_fixed.py`: a script that builds 400
fake protein-product records by drawing random values, collects them into a
table with a fixed column list, and writes the table to a CSV file.

The script is embedded shallowly: every call to the `random` module is
replaced by a field of a `Draws` structure (a `Nat` seed per integer/choice
draw, a rational per `random.uniform` draw, a `Bool` per coin flip), and the
library functions `random.randint` / `random.choice` / `round(_, 1)` are
modelled by `randint` / `choice` / `round1` below, which reproduce the
guarantees those functions give for every seed (a `randint` result always lies
in the inclusive range; a `choice` result is always a member of the list).
A generated row is an association list mirroring the Python dict literal in
its insertion order; `pd.DataFrame(products, columns=all_columns)` together
with `df.to_csv(output_file, index=False)` is modelled by `to_csv`, which
emits one header line in `all_columns` order followed by one line per record,
each line reindexed through `all_columns`.
-/

/-- Cell values of the generated table: the Python dict holds strings,
integers, and one rounded float (the rating), modelled as a rational. -/
inductive Val where
  | str (s : String)
  | nat (n : Nat)
  | rat (q : ℚ)
  deriving DecidableEq, Repr

/-- Source line 5: the fixed brand list. -/
def brands : List String :=
  ["Optimus", "Health Supp", "GNC", "MuscleBlaze", "Ultimate Nutrition", "ON", "Labrada", "Dymatize"]

/-- Source line 6: the fixed manufacturer list. -/
def manufacturers : List String :=
  ["Optimus Inc", "GNC Ltd", "MuscleBlaze Pvt", "Ultimate Nutrition Co", "Dymatize India", "ON Labs"]

/-- Source line 7: the fixed country list. -/
def countries : List String := ["India", "USA", "Germany", "UK", "Canada"]

/-- Source line 8: the fixed flavor list. -/
def flavors : List String :=
  ["Chocolate", "Vanilla", "Strawberry", "Mango", "Banana", "Cookies & Cream", "Unflavored"]

/-- Source line 9: the fixed certification list. -/
def certifications : List String :=
  ["FSSAI Approved", "GMP Certified", "ISO 22000", "FDA Approved", "Halal Certified"]

/-- Source line 10: the fixed dietary-info list. -/
def dietary_info : List String := ["vegetarian", "vegan", "non-GMO", "gluten-free", "organic"]

/-- Source line 11: the fixed skin-type candidate set. -/
def skin_types : List String := ["normal", "dry", "oily", "combination", "sensitive"]

/-- Source line 12: the fixed hair-type candidate set. -/
def hair_types : List String := ["straight", "wavy", "curly", "fine", "thick"]

/-- Source line 13: the fixed allergen candidate set. -/
def allergens : List String := ["nuts", "dairy", "gluten", "soy"]

/-- Source line 14: the fixed season list. -/
def seasons : List String := ["spring", "summer", "fall", "winter", "all-season"]

/-- Source line 15: the fixed gender list. -/
def genders : List String := ["men", "women", "unisex"]

/-- Source line 16: the fixed age-group list. -/
def age_groups : List String := ["adult", "teen", "senior", "all-ages"]

/-- Source lines 19-26: the declared CSV column list, in its declared order. -/
def all_columns : List String :=
  ["name", "description", "price", "originalPrice", "images", "category", "subcategory", "brand",
   "stock", "rating", "reviewCount", "tags", "features", "ingredients", "isNewProduct",
   "isBestseller", "isFeatured", "sku", "barcode", "color", "size", "material", "scent",
   "gender", "ageGroup", "manufacturer", "countryOfOrigin", "allergens", "dietaryInfo",
   "skinType", "hairType", "careInstructions", "certifications", "keywords", "metaTitle",
   "metaDescription", "minOrderQuantity", "maxOrderQuantity", "season", "spf"]

/-- Model of `random.randint(lo, hi)`: parametrized by a seed `s`, returns a
value that (for `lo ≤ hi`) always lies in the inclusive range `[lo, hi]`,
exactly the guarantee the Python function gives. -/
def randint (lo hi s : Nat) : Nat := lo + s % (hi + 1 - lo)

/-- Model of `random.choice(l)` for a string list: parametrized by a seed `s`,
returns an element of `l` whenever `l` is nonempty, exactly the guarantee the
Python function gives. -/
def choice (l : List String) (s : Nat) : String := l.getD (s % l.length) ""

/-- Model of Python `round(x, 1)`: round to the nearest multiple of 1/10.
(Python rounds exact ties to even; Lean's `round` rounds ties up. The two
agree everywhere except at exact ties, and every property proved here —
range preservation and one-decimal-digit shape — holds for both.) -/
def round1 (q : ℚ) : ℚ := ((round (q * 10) : ℤ) : ℚ) / 10

/-- The decimal digit character for `d` (`0`-`9` for `d < 10`). -/
def digitChar (d : Nat) : Char := Char.ofNat (48 + d)

/-- The four decimal digits of `i`, zero-padded: the value of the f-string
format `{i:04d}` whenever `i ≤ 9999`. Used to reason about `zfill`. -/
def pad4 (i : Nat) : String :=
  String.mk [digitChar (i / 1000 % 10), digitChar (i / 100 % 10),
             digitChar (i / 10 % 10), digitChar (i % 10)]

/-- Model of the f-string format `{i:0wd}`: the decimal digits of `i`,
left-padded with zeros to a minimum width of `w`. -/
def zfill (w : Nat) (s : String) : String :=
  String.mk (List.replicate (w - s.length) '0' ++ s.data)

/-- One record's worth of random draws: one field per call to the `random`
module in the loop body, in source order. Integer/choice draws are `Nat`
seeds, the `random.uniform(3.5, 5.0)` draw is the rational it returns, and
each `random.choice([True, False])` coin flip is a `Bool`. -/
structure Draws where
  price_s : Nat
  oprice_s : Nat
  stock_s : Nat
  rating_u : ℚ
  reviews_s : Nat
  brand_s : Nat
  manufacturer_s : Nat
  country_s : Nat
  flavor_s : Nat
  cert_s : Nat
  diet_s : Nat
  isNew_s : Nat
  isBest_s : Nat
  isFeat_s : Nat
  barcode_s : Nat
  size_s : Nat
  gender_s : Nat
  ageGroup_s : Nat
  allergen_flag : Bool
  allergen_s : Nat
  skin_flag : Bool
  skin_s : Nat
  hair_flag : Bool
  hair_s : Nat
  maxOrder_s : Nat
  season_s : Nat

/-- Source line 31: the record's price draw. -/
def price (d : Draws) : Nat := randint 999 4999 d.price_s

/-- Source line 32: the record's original price, the price plus a markup draw. -/
def original_price (d : Draws) : Nat := price d + randint 200 1000 d.oprice_s

/-- Source line 33: the record's stock draw. -/
def stock (d : Draws) : Nat := randint 50 300 d.stock_s

/-- Source line 34: the record's rating, the uniform draw rounded to one decimal. -/
def rating (d : Draws) : ℚ := round1 d.rating_u

/-- Source line 35: the record's review-count draw. -/
def reviews (d : Draws) : Nat := randint 50 1000 d.reviews_s

/-- Source line 36: the record's brand draw. -/
def brand (d : Draws) : String := choice brands d.brand_s

/-- Source line 37: the record's manufacturer draw. -/
def manufacturer (d : Draws) : String := choice manufacturers d.manufacturer_s

/-- Source line 38: the record's country draw. -/
def country (d : Draws) : String := choice countries d.country_s

/-- Source line 39: the record's flavor draw. -/
def flavor (d : Draws) : String := choice flavors d.flavor_s

/-- Source line 40: the record's certification draw. -/
def cert (d : Draws) : String := choice certifications d.cert_s

/-- Source line 41: the record's dietary-info draw. -/
def diet (d : Draws) : String := choice dietary_info d.diet_s

/-- Source line 44: `image_num = (i % 9) + 1`. -/
def image_num (i : Nat) : Nat := (i % 9) + 1

set_option maxHeartbeats 1000000 in
/-- Source lines 46-87: the row dictionary built in the loop body, as an
association list in the dict literal's insertion order. The loop's local
variables (source lines 31-44) appear as the per-draw functions above. -/
def genRow (i : Nat) (d : Draws) : List (String × Val) :=
  [("name", Val.str ("Protein Supplement " ++ Nat.repr i)),
   ("description", Val.str ("High-quality Protein supplement " ++ Nat.repr i ++
      " ideal for muscle growth and recovery. " ++ flavor d ++
      " flavor for gym and fitness enthusiasts.")),
   ("price", Val.nat (price d)),
   ("originalPrice", Val.nat (original_price d)),
   ("images", Val.str ("uploads/products/protien" ++ Nat.repr (image_num i) ++ ".jpg")),
   ("category", Val.str "Proteins"),
   ("subcategory", Val.str "Health Supplement"),
   ("brand", Val.str (brand d)),
   ("stock", Val.nat (stock d)),
   ("rating", Val.rat (rating d)),
   ("reviewCount", Val.nat (reviews d)),
   ("tags", Val.str "Protein,supplement,gym,fitness,muscle"),
   ("features", Val.str ("Supports muscle growth,Boosts recovery,High Protein content," ++
      flavor d ++ " flavor")),
   ("ingredients", Val.str "Whey Protein Concentrate,Whey Protein Isolate,BCAAs,Digestive Enzymes"),
   ("isNewProduct", Val.str (choice ["TRUE", "FALSE"] d.isNew_s)),
   ("isBestseller", Val.str (choice ["TRUE", "FALSE"] d.isBest_s)),
   ("isFeatured", Val.str (choice ["TRUE", "FALSE"] d.isFeat_s)),
   ("sku", Val.str ("PROT" ++ zfill 4 (Nat.repr i))),
   ("barcode", Val.str (Nat.repr (randint 100000000000 999999999999 d.barcode_s))),
   ("color", Val.str "N/A"),
   ("size", Val.str (Nat.repr (randint 500 2000 d.size_s) ++ "g")),
   ("material", Val.str "Plastic Jar"),
   ("scent", Val.str (flavor d)),
   ("gender", Val.str (choice genders d.gender_s)),
   ("ageGroup", Val.str (choice age_groups d.ageGroup_s)),
   ("manufacturer", Val.str (manufacturer d)),
   ("countryOfOrigin", Val.str (country d)),
   ("allergens", Val.str (if d.allergen_flag then choice allergens d.allergen_s else "")),
   ("dietaryInfo", Val.str (diet d)),
   ("skinType", Val.str (if d.skin_flag then choice skin_types d.skin_s else "")),
   ("hairType", Val.str (if d.hair_flag then choice hair_types d.hair_s else "")),
   ("careInstructions", Val.str "Store in a cool dry place,Keep away from moisture"),
   ("certifications", Val.str (cert d)),
   ("keywords", Val.str "Protein,health,supplement,gym,fitness,muscle"),
   ("metaTitle", Val.str (brand d ++ " Protein Supplement " ++ Nat.repr i ++ " - " ++ flavor d)),
   ("metaDescription", Val.str ("Buy " ++ brand d ++ " " ++ flavor d ++ " Protein supplement " ++
      Nat.repr i ++ " - premium protein for strength, muscle growth, and fitness.")),
   ("minOrderQuantity", Val.nat 1),
   ("maxOrderQuantity", Val.nat (randint 5 20 d.maxOrder_s)),
   ("season", Val.str (choice seasons d.season_s)),
   ("spf", Val.str "")]
/-- Dictionary lookup on a row: the value stored under column name `c`. -/
def getVal (r : List (String × Val)) (c : String) : Option Val :=
  (r.find? (fun p => p.1 == c)).map Prod.snd

/-- The key list of a row, in insertion order. -/
def dictKeys (r : List (String × Val)) : List String := r.map Prod.fst

/-- Render one cell value as CSV text. -/
def renderVal : Val → String
  | .str s => s
  | .nat n => Nat.repr n
  | .rat q => toString q

/-- Minimal CSV quoting, as `to_csv` applies: fields containing the delimiter,
a quote, or a line break are wrapped in double quotes with inner quotes
doubled. (No generated value contains a line break, so every record stays on
one line.) -/
def csvQuote (s : String) : String :=
  if s.contains ',' || s.contains '"' || s.contains '\n' then
    "\"" ++ s.replace "\"" "\"\"" ++ "\""
  else s

/-- The CSV text of row `r` in column `c`: the reindexing step of
`pd.DataFrame(products, columns=all_columns)` — the cell is looked up by
column name, never by position. -/
def csvCell (r : List (String × Val)) (c : String) : String :=
  csvQuote (renderVal ((getVal r c).getD (.str "")))

/-- One CSV data line: the row's cells in `all_columns` order. -/
def csvLine (r : List (String × Val)) : String :=
  String.intercalate "," (all_columns.map (csvCell r))

/-- The CSV header line: the declared columns in declared order. -/
def headerLine : String :=
  String.intercalate "," all_columns

/-- Source lines 92-96: `pd.DataFrame(products, columns=all_columns)` followed
by `df.to_csv(output_file, index=False)`, viewed as the list of lines written:
the header first, then one line per record in order. -/
def to_csv (rows : List (List (String × Val))) : List String :=
  headerLine :: rows.map csvLine

/-- Source lines 29-30 and 89: the full product list, indices 1 through 400,
given a family of draws (one `Draws` per index). -/
def products (ds : Nat → Draws) : List (List (String × Val)) :=
  (List.range' 1 400).map (fun i => genRow i (ds i))

/-- A concrete draw record (all seeds zero, rating draw 4, all flips false),
used for closed witness and counterexample statements. -/
def d0 : Draws :=
  ⟨0, 0, 0, 4, 0, 0, 0, 0, 0, 0, 0, 0, 0, 0, 0, 0, 0, 0, false, 0, false, 0, false, 0, 0, 0⟩

/-- `randint` keeps its result in the inclusive range, for every seed: the
guarantee `random.randint(lo, hi)` documents. -/
theorem randint_mem (lo hi s : Nat) (h : lo ≤ hi) :
    lo ≤ randint lo hi s ∧ randint lo hi s ≤ hi := by
  unfold randint
  have hpos : 0 < hi + 1 - lo := by omega
  have hm := Nat.mod_lt s hpos
  omega

/-- `choice` returns a member of the list, for every seed, whenever the list
is nonempty: the guarantee `random.choice` documents. -/
theorem choice_mem (l : List String) (s : Nat) (h : l ≠ []) : choice l s ∈ l := by
  unfold choice
  have hlen : 0 < l.length := List.length_pos.mpr h
  have hm : s % l.length < l.length := Nat.mod_lt s hlen
  rw [List.getD_eq_getElem l _ hm]
  exact List.getElem_mem hm

/-- Rounding to one decimal preserves the interval `[3.5, 5]`, because both
endpoints are themselves multiples of `1/10`. -/
theorem round1_bounds (q : ℚ) (h1 : 7/2 ≤ q) (h2 : q ≤ 5) :
    7/2 ≤ round1 q ∧ round1 q ≤ 5 := by
  unfold round1
  have e := round_eq (q * 10)
  have h35 : (35 : ℤ) ≤ round (q * 10) := by
    rw [e]
    have h : (35 : ℚ) ≤ q * 10 + 1 / 2 := by linarith
    exact Int.le_floor.mpr (by exact_mod_cast h)
  have h50 : round (q * 10) ≤ 50 := by
    rw [e]
    have hf : ((⌊q * 10 + 1 / 2⌋ : ℤ) : ℚ) ≤ q * 10 + 1 / 2 := Int.floor_le _
    have hb : ((⌊q * 10 + 1 / 2⌋ : ℤ) : ℚ) ≤ 101 / 2 := by linarith
    by_contra hc
    push_neg at hc
    have h51 : (51 : ℚ) ≤ ((⌊q * 10 + 1 / 2⌋ : ℤ) : ℚ) := by exact_mod_cast hc
    linarith
  constructor
  · have hc : (35 : ℚ) ≤ ((round (q * 10) : ℤ) : ℚ) := by exact_mod_cast h35
    linarith
  · have hc : ((round (q * 10) : ℤ) : ℚ) ≤ 50 := by exact_mod_cast h50
    linarith

/-- Distinct decimal digits render as distinct characters. -/
theorem digitChar_inj : ∀ a < 10, ∀ b < 10, digitChar a = digitChar b → a = b := by decide

/-- Four-digit zero-padded rendering is injective below 10000. -/
theorem pad4_inj (i j : Nat) (hi : i ≤ 9999) (hj : j ≤ 9999) (h : pad4 i = pad4 j) : i = j := by
  unfold pad4 at h
  have hd : [digitChar (i / 1000 % 10), digitChar (i / 100 % 10),
             digitChar (i / 10 % 10), digitChar (i % 10)] =
            [digitChar (j / 1000 % 10), digitChar (j / 100 % 10),
             digitChar (j / 10 % 10), digitChar (j % 10)] := congrArg String.data h
  simp only [List.cons.injEq, and_true] at hd
  obtain ⟨h3, h2, h1, h0⟩ := hd
  have e3 := digitChar_inj _ (Nat.mod_lt _ (by omega)) _ (Nat.mod_lt _ (by omega)) h3
  have e2 := digitChar_inj _ (Nat.mod_lt _ (by omega)) _ (Nat.mod_lt _ (by omega)) h2
  have e1 := digitChar_inj _ (Nat.mod_lt _ (by omega)) _ (Nat.mod_lt _ (by omega)) h1
  have e0 := digitChar_inj _ (Nat.mod_lt _ (by omega)) _ (Nat.mod_lt _ (by omega)) h0
  omega

set_option maxRecDepth 100000 in
/-- On the index range the generator uses, zero-padding the decimal rendering
to width 4 produces exactly the four zero-padded digits. -/
theorem zfill_repr_eq_pad4 : ∀ i < 401, zfill 4 (Nat.repr i) = pad4 i := by decide

/-- String append acts as list append on the underlying character data. -/
theorem str_data_append (a b : String) : (a ++ b).data = a.data ++ b.data := rfl

/-- The zero-padded rendering of an index below 401 has exactly four
characters. -/
theorem zfill_repr_length (i : Nat) (h : i < 401) : (zfill 4 (Nat.repr i)).length = 4 := by
  rw [zfill_repr_eq_pad4 i h]
  rfl

/-- Appending to a fixed front string is injective. -/
theorem append_left_inj (p a b : String) (h : p ++ a = p ++ b) : a = b := by
  have hd : (p ++ a).data = (p ++ b).data := congrArg String.data h
  rw [str_data_append, str_data_append] at hd
  exact String.ext (List.append_cancel_left hd)

/-- A column present among a row's keys has a value under lookup. -/
theorem getVal_isSome_of_mem_keys (r : List (String × Val)) (c : String)
    (h : c ∈ dictKeys r) : (getVal r c).isSome = true := by
  unfold dictKeys at h
  obtain ⟨p, hp, he⟩ := List.mem_map.mp h
  unfold getVal
  have hfind : (List.find? (fun p => p.1 == c) r).isSome :=
    List.find?_isSome.mpr ⟨p, hp, by simp [he]⟩
  obtain ⟨v, hv⟩ := Option.isSome_iff_exists.mp hfind
  rw [hv]
  rfl

/-- A CSV line depends only on the row's lookup function, never on the
insertion order of its pairs. -/
theorem csvLine_ext (r₁ r₂ : List (String × Val))
    (h : ∀ c, getVal r₁ c = getVal r₂ c) : csvLine r₁ = csvLine r₂ := by
  unfold csvLine
  congr 1
  apply List.map_congr_left
  intro c _
  unfold csvCell
  rw [h c]

/-- An optionally-populated field is empty or a member of its candidate set,
and is nonempty exactly when the coin flip succeeded. -/
theorem optional_spec (flag : Bool) (l : List String) (s : Nat)
    (hne : l ≠ []) (hempty : "" ∉ l) :
    ((if flag then choice l s else "") = "" ∨ (if flag then choice l s else "") ∈ l) ∧
    (((if flag then choice l s else "") ≠ "") ↔ flag = true) := by
  cases flag
  · simp
  · have hm := choice_mem l s hne
    simp only [if_true]
    refine ⟨Or.inr hm, ?_⟩
    simp only [iff_true]
    intro hc
    rw [hc] at hm
    exact hempty hm

/-- Claim C1, counterexample: the generated record for index 1 (and the
declared column list itself) has 40 keys, not the 39 the claim states. -/
theorem C1_counterexample :
    (dictKeys (genRow 1 d0)).length = 40 ∧ all_columns.length = 40 ∧
    ¬ (dictKeys (genRow 1 d0)).length = 39 ∧ ¬ all_columns.length = 39 := by
  decide

/-- Claim C1 (amended: 40 keys, not 39): every generated record has exactly
the 40 declared keys — optional fields hold an empty string rather than being
absent, so every declared column has a value under lookup — and a CSV line is
computed from the row through name-based lookup in the fixed declared column
order, independent of the insertion order of the per-row dictionary. -/
theorem C1_record_shape (i : Nat) (d : Draws) :
    dictKeys (genRow i d) = all_columns ∧
    all_columns.length = 40 ∧
    (∀ c ∈ all_columns, (getVal (genRow i d) c).isSome = true) ∧
    (∀ r : List (String × Val), (∀ c, getVal r c = getVal (genRow i d) c) →
        csvLine r = csvLine (genRow i d)) := by
  refine ⟨rfl, rfl, ?_, ?_⟩
  · intro c hc
    have hk : dictKeys (genRow i d) = all_columns := rfl
    exact getVal_isSome_of_mem_keys (genRow i d) c (by rw [hk]; exact hc)
  · intro r hr
    exact csvLine_ext r (genRow i d) hr

/-- Claim C1 witness: the record for index 1 under the concrete draws `d0`
has exactly the declared keys. -/
theorem C1_record_shape_w : dictKeys (genRow 1 d0) = all_columns :=
  (C1_record_shape 1 d0).1

/-- Claim C2, counterexample: at index 1 the generated images path is
`protien2.jpg`, not the `protien1.jpg` that the claimed formula
`((i-1) mod 9) + 1` produces. -/
theorem C2_counterexample :
    getVal (genRow 1 d0) "images" = some (Val.str "uploads/products/protien2.jpg") ∧
    ¬ getVal (genRow 1 d0) "images" =
        some (Val.str ("uploads/products/protien" ++ Nat.repr ((1 - 1) % 9 + 1) ++ ".jpg")) := by
  constructor
  · rfl
  · decide

/-- Claim C2 (amended: the index feeds the modulus directly, with no `i-1`):
for every record index `i` in `[1, 400]`, the images field equals
`"uploads/products/protien"` followed by `(i mod 9) + 1` followed by
`".jpg"`, and that file number lies in `[1, 9]`. -/
theorem C2_images (i : Nat) (d : Draws) (h1 : 1 ≤ i) (h2 : i ≤ 400) :
    getVal (genRow i d) "images" =
      some (Val.str ("uploads/products/protien" ++ Nat.repr (i % 9 + 1) ++ ".jpg")) ∧
    1 ≤ i % 9 + 1 ∧ i % 9 + 1 ≤ 9 := by
  have h9 : i % 9 < 9 := Nat.mod_lt i (by norm_num)
  exact ⟨rfl, by omega, by omega⟩

/-- Claim C2 witness: index 1 gets file number 2. -/
theorem C2_images_w :
    getVal (genRow 1 d0) "images" =
      some (Val.str ("uploads/products/protien" ++ Nat.repr (1 % 9 + 1) ++ ".jpg")) ∧
    1 ≤ 1 % 9 + 1 ∧ 1 % 9 + 1 ≤ 9 :=
  C2_images 1 d0 (by norm_num) (by norm_num)

/-- Claim C3: for every record, the price is an integer in `[999, 4999]`, the
original price is the price plus an integer in `[200, 1000]`, and hence the
original price strictly exceeds the price. -/
theorem C3_price_bounds (i : Nat) (d : Draws) :
    getVal (genRow i d) "price" = some (Val.nat (price d)) ∧
    getVal (genRow i d) "originalPrice" = some (Val.nat (original_price d)) ∧
    999 ≤ price d ∧ price d ≤ 4999 ∧
    (∃ m, 200 ≤ m ∧ m ≤ 1000 ∧ original_price d = price d + m) ∧
    price d < original_price d := by
  obtain ⟨hp1, hp2⟩ := randint_mem 999 4999 d.price_s (by norm_num)
  obtain ⟨hm1, hm2⟩ := randint_mem 200 1000 d.oprice_s (by norm_num)
  refine ⟨rfl, rfl, hp1, hp2, ⟨randint 200 1000 d.oprice_s, hm1, hm2, rfl⟩, ?_⟩
  show price d < price d + randint 200 1000 d.oprice_s
  omega

/-- Claim C3 witness: the bounds hold for the concrete draws `d0`. -/
theorem C3_price_bounds_w : 999 ≤ price d0 ∧ price d0 ≤ 4999 :=
  ⟨(C3_price_bounds 1 d0).2.2.1, (C3_price_bounds 1 d0).2.2.2.1⟩

/-- Claim C4: whenever the uniform draw lies in `[3.5, 5]` (as
`random.uniform(3.5, 5.0)` guarantees), the record's rating lies in
`[3.5, 5]` and is an integer multiple of `1/10`, i.e. has exactly one
decimal digit. -/
theorem C4_rating_bounds (i : Nat) (d : Draws)
    (h1 : 7/2 ≤ d.rating_u) (h2 : d.rating_u ≤ 5) :
    getVal (genRow i d) "rating" = some (Val.rat (rating d)) ∧
    7/2 ≤ rating d ∧ rating d ≤ 5 ∧ ∃ k : ℤ, rating d = (k : ℚ) / 10 := by
  obtain ⟨hl, hu⟩ := round1_bounds d.rating_u h1 h2
  exact ⟨rfl, hl, hu, ⟨round (d.rating_u * 10), rfl⟩⟩

/-- Claim C4 witness: the concrete draws `d0` (uniform draw 4) satisfy the
hypotheses and give a rating in range with one decimal digit. -/
theorem C4_rating_bounds_w :
    getVal (genRow 1 d0) "rating" = some (Val.rat (rating d0)) ∧
    7/2 ≤ rating d0 ∧ rating d0 ≤ 5 ∧ ∃ k : ℤ, rating d0 = (k : ℚ) / 10 :=
  C4_rating_bounds 1 d0 (by norm_num [d0]) (by norm_num [d0])

/-- Claim C5: for every record index `i` in `[1, 400]`, the sku is `"PROT"`
followed by `i` zero-padded to exactly 4 digits, skus of distinct indices are
distinct whatever their draws, and index 5 yields `"PROT0005"`. -/
theorem C5_sku (i : Nat) (d : Draws) (h1 : 1 ≤ i) (h2 : i ≤ 400) :
    getVal (genRow i d) "sku" = some (Val.str ("PROT" ++ zfill 4 (Nat.repr i))) ∧
    (zfill 4 (Nat.repr i)).length = 4 ∧
    (∀ j : Nat, 1 ≤ j → j ≤ 400 → ∀ d' : Draws, j ≠ i →
        getVal (genRow j d') "sku" ≠ getVal (genRow i d) "sku") ∧
    getVal (genRow 5 d) "sku" = some (Val.str "PROT0005") := by
  refine ⟨rfl, zfill_repr_length i (by omega), ?_, ?_⟩
  swap
  · have h5 : ("PROT" ++ zfill 4 (Nat.repr 5)) = "PROT0005" := by decide
    rw [← h5]
    rfl
  intro j hj1 hj2 d' hne hcontra
  have hji : getVal (genRow j d') "sku" = some (Val.str ("PROT" ++ zfill 4 (Nat.repr j))) := rfl
  have hii : getVal (genRow i d) "sku" = some (Val.str ("PROT" ++ zfill 4 (Nat.repr i))) := rfl
  rw [hji, hii] at hcontra
  have hs : "PROT" ++ zfill 4 (Nat.repr j) = "PROT" ++ zfill 4 (Nat.repr i) := by
    injection hcontra with hv
    injection hv
  rw [zfill_repr_eq_pad4 j (by omega), zfill_repr_eq_pad4 i (by omega)] at hs
  exact hne (pad4_inj j i (by omega) (by omega) (append_left_inj _ _ _ hs))

/-- Claim C5 witness: index 1 is in range and yields the zero-padded sku. -/
theorem C5_sku_w :
    1 ≤ 1 ∧ (1 : Nat) ≤ 400 ∧
    getVal (genRow 1 d0) "sku" = some (Val.str ("PROT" ++ zfill 4 (Nat.repr 1))) :=
  ⟨le_refl 1, by norm_num, (C5_sku 1 d0 (le_refl 1) (by norm_num)).1⟩

/-- Claim C6: the generator produces exactly 400 records, and the serialized
output has exactly 401 lines — the header line first, then one line per
record in generation order. -/
theorem C6_output_shape (ds : Nat → Draws) :
    (products ds).length = 400 ∧
    (to_csv (products ds)).length = 401 ∧
    (to_csv (products ds)).head? = some headerLine ∧
    (to_csv (products ds)).tail = (products ds).map csvLine := by
  have hlen : (products ds).length = 400 := by
    unfold products
    rw [List.length_map, List.length_range']
  refine ⟨hlen, ?_, rfl, rfl⟩
  unfold to_csv
  rw [List.length_cons, List.length_map, hlen]

/-- Claim C6 witness: with every index drawing `d0`, the product list has 400
records. -/
theorem C6_output_shape_w : (products (fun _ => d0)).length = 400 :=
  (C6_output_shape (fun _ => d0)).1

/-- Claim C7: every record's category field is the literal `"Proteins"`,
which differs from the misspelling `"Protien"`. -/
theorem C7_category (i : Nat) (d : Draws) :
    getVal (genRow i d) "category" = some (Val.str "Proteins") ∧
    "Proteins" ≠ "Protien" := by
  exact ⟨rfl, by decide⟩

/-- Claim C7 witness: the record for index 1 under `d0` has category
`"Proteins"`. -/
theorem C7_category_w : getVal (genRow 1 d0) "category" = some (Val.str "Proteins") :=
  (C7_category 1 d0).1

/-- Claim C8: each of the three optional fields — allergens, skinType,
hairType — is either empty or a member of its fixed candidate set, and is
populated (nonempty) exactly when its independent coin flip succeeded. -/
theorem C8_optional_fields (i : Nat) (d : Draws) :
    (∃ a, getVal (genRow i d) "allergens" = some (Val.str a) ∧
      (a = "" ∨ a ∈ allergens) ∧ ((a ≠ "") ↔ d.allergen_flag = true)) ∧
    (∃ a, getVal (genRow i d) "skinType" = some (Val.str a) ∧
      (a = "" ∨ a ∈ skin_types) ∧ ((a ≠ "") ↔ d.skin_flag = true)) ∧
    (∃ a, getVal (genRow i d) "hairType" = some (Val.str a) ∧
      (a = "" ∨ a ∈ hair_types) ∧ ((a ≠ "") ↔ d.hair_flag = true)) := by
  refine ⟨⟨_, rfl, ?_⟩, ⟨_, rfl, ?_⟩, ⟨_, rfl, ?_⟩⟩
  · exact optional_spec d.allergen_flag allergens d.allergen_s (by decide) (by decide)
  · exact optional_spec d.skin_flag skin_types d.skin_s (by decide) (by decide)
  · exact optional_spec d.hair_flag hair_types d.hair_s (by decide) (by decide)

/-- Claim C8 witness: the allergens field of the record for index 1 under
`d0` obeys the optional-field policy. -/
theorem C8_optional_fields_w :
    ∃ a, getVal (genRow 1 d0) "allergens" = some (Val.str a) ∧
      (a = "" ∨ a ∈ allergens) ∧ ((a ≠ "") ↔ d0.allergen_flag = true) :=
  (C8_optional_fields 1 d0).1

/-- Claim C9: every record's minOrderQuantity is the integer 1 and its
maxOrderQuantity is an integer in `[5, 20]`, so the minimum never exceeds the
maximum. -/
theorem C9_order_quantities (i : Nat) (d : Draws) :
    getVal (genRow i d) "minOrderQuantity" = some (Val.nat 1) ∧
    getVal (genRow i d) "maxOrderQuantity" = some (Val.nat (randint 5 20 d.maxOrder_s)) ∧
    5 ≤ randint 5 20 d.maxOrder_s ∧ randint 5 20 d.maxOrder_s ≤ 20 ∧
    1 ≤ randint 5 20 d.maxOrder_s := by
  obtain ⟨h5, h20⟩ := randint_mem 5 20 d.maxOrder_s (by norm_num)
  exact ⟨rfl, rfl, h5, h20, by omega⟩

/-- Claim C9 witness: the record for index 1 under `d0` has
minOrderQuantity 1. -/
theorem C9_order_quantities_w :
    getVal (genRow 1 d0) "minOrderQuantity" = some (Val.nat 1) :=
  (C9_order_quantities 1 d0).1

/-- Claim C10: every record's stock is an integer in `[50, 300]` and its
reviewCount is an integer in `[50, 1000]`. -/
theorem C10_stock_reviews (i : Nat) (d : Draws) :
    getVal (genRow i d) "stock" = some (Val.nat (stock d)) ∧
    50 ≤ stock d ∧ stock d ≤ 300 ∧
    getVal (genRow i d) "reviewCount" = some (Val.nat (reviews d)) ∧
    50 ≤ reviews d ∧ reviews d ≤ 1000 := by
  obtain ⟨hs1, hs2⟩ := randint_mem 50 300 d.stock_s (by norm_num)
  obtain ⟨hr1, hr2⟩ := randint_mem 50 1000 d.reviews_s (by norm_num)
  exact ⟨rfl, hs1, hs2, rfl, hr1, hr2⟩

/-- Claim C10 witness: the stock bounds hold for the concrete draws `d0`. -/
theorem C10_stock_reviews_w : 50 ≤ stock d0 ∧ stock d0 ≤ 300 :=
  ⟨(C10_stock_reviews 1 d0).2.1, (C10_stock_reviews 1 d0).2.2.1⟩
